import Mathlib

/-!
Shallow embedding of the automated-smart-home firmware (src/src/main.cpp,
src/src/gpio.h).  The firmware's `loop` function runs one scheduler tick:
it gates on backend readiness, polls six streaming channels in a fixed
order, maps each raw value to an actuator command and drives the output.
External library calls (WiFi status, Firebase readiness, stream reads) are
modelled as oracle values supplied in a per-tick environment; the mutable
globals of the firmware form the `State`; the side effects performed by a
tick (stream (re)subscriptions, GPIO writes, servo writes, error logging)
are collected in a list of `Action`s.
-/

namespace SmartHome

/-! ## GPIO pin constants (src/src/gpio.h, lines 13-18) -/

def HEATING_PAD_PIN : Nat := 5
def TEMPERATURE_SENSOR_PIN : Nat := 18
def CAMERA_LEFT_RIGHT_PIN : Nat := 33
def CAMERA_UP_DOWN_PIN : Nat := 32
def LASER_LEFT_RIGHT_PIN : Nat := 26
def LASER_UP_DOWN_PIN : Nat := 25

/-! ## Channels -/

/-- The six streaming channels of the firmware, one per `FirebaseData`
object polled by `loop` (main.cpp lines 253-331), in their fixed
evaluation order. -/
inductive Channel where
  | heatingPad
  | temperatureSensor
  | cameraX
  | cameraY
  | laserX
  | laserY
deriving DecidableEq

/-- The fixed order in which `loop` handles the six channels
(main.cpp: heating pad at line 253, temperature sensor at 267,
camera x/y at 281/294, laser x/y at 307/320). -/
def channelOrder : List Channel :=
  [Channel.heatingPad, Channel.temperatureSensor, Channel.cameraX,
   Channel.cameraY, Channel.laserX, Channel.laserY]

/-- GPIO pin driven by each channel's actuator (gpio.h). -/
def pinOf : Channel → Nat
  | Channel.heatingPad => HEATING_PAD_PIN
  | Channel.temperatureSensor => TEMPERATURE_SENSOR_PIN
  | Channel.cameraX => CAMERA_LEFT_RIGHT_PIN
  | Channel.cameraY => CAMERA_UP_DOWN_PIN
  | Channel.laserX => LASER_LEFT_RIGHT_PIN
  | Channel.laserY => LASER_UP_DOWN_PIN

/-- Whether the channel's error branch logs the stream error.  The two
binary channels print the error reason (main.cpp lines 258 and 272); the
four servo-channel blocks have no such `else` branch (lines 282-286,
295-299, 308-312, 321-325). -/
def logOnError : Channel → Bool
  | Channel.heatingPad => true
  | Channel.temperatureSensor => true
  | _ => false

/-! ## Pure value mapping -/

/-- The Arduino `constrain(amt, low, high)` macro used at main.cpp
lines 289, 302, 315, 328. -/
def constrain (amt low high : Int) : Int :=
  if amt < low then low else if amt > high then high else amt

/-- The C++ conversion of an `int` to `uint8_t`, performed implicitly by
`uint8_t heating_pad_state = heating_pad_data.intData();` (main.cpp
line 261) and the analogous line 275: reduction modulo 2^8, yielding the
least non-negative residue. -/
def toUInt8 (v : Int) : Nat := (v % 256).toNat

/-! ## Tick environment (oracle values for the external library calls) -/

/-- Oracle values one channel's `FirebaseData` object yields during one
tick: the result of `Firebase.readStream`, the value of `streamTimeout()`
when queried this tick, the result of `streamAvailable()` after a
successful read, and the payload of `intData()`. -/
structure ChanEnv where
  readOk : Bool
  timeoutFlag : Bool
  available : Bool
  value : Int

/-- Oracle values for one invocation of `loop`: `Firebase.ready()` at the
top of the tick (line 179), `WiFi.status() == WL_CONNECTED` (line 180),
`Firebase.ready()` as re-queried after `Firebase.reconnectWiFi(false)`
and the delay (lines 186, 196, 206, 216, 226, 236 — modelled as a single
value), and the per-channel stream oracles. -/
structure TickEnv where
  fbReady : Bool
  wifiConnected : Bool
  fbReadyAfterReconnect : Bool
  chans : Channel → ChanEnv

/-- The poll outcome of one channel, as the spec classifies it, derived
from the oracle values: a successful read with a fresh sample is
`newValue`, a successful read without one is `noData`, a failed read is
`timedOut` or `errored` according to `streamTimeout()`. -/
inductive PollResult where
  | noData
  | newValue (v : Int)
  | timedOut
  | errored
deriving DecidableEq

def pollOf (e : ChanEnv) : PollResult :=
  if e.readOk then
    if e.available then PollResult.newValue e.value else PollResult.noData
  else if e.timeoutFlag then PollResult.timedOut
  else PollResult.errored

/-! ## Firmware state -/

/-- The mutable globals of main.cpp (lines 39-40 and 51-60), i.e. the
state the scheduler loop carries across ticks.  `last_*` are `uint8_t`,
the servo positions are `int`. -/
structure State where
  last_heating_pad_state : Nat
  last_temperature_sensor_state : Nat
  camera_left_right_servo_pos : Int
  camera_up_down_servo_pos : Int
  laser_left_right_servo_pos : Int
  laser_up_down_servo_pos : Int
deriving DecidableEq

/-- Global initial values (main.cpp lines 39-40, 51-52, 59-60), which are
also the values `setup` writes to the hardware (lines 75-76, 80-88). -/
def initState : State :=
  { last_heating_pad_state := 0
    last_temperature_sensor_state := 0
    camera_left_right_servo_pos := 90
    camera_up_down_servo_pos := 90
    laser_left_right_servo_pos := 90
    laser_up_down_servo_pos := 90 }

/-- Reads the state field owned by a channel, as an integer. -/
def stateOf (c : Channel) (st : State) : Int :=
  match c with
  | Channel.heatingPad => st.last_heating_pad_state
  | Channel.temperatureSensor => st.last_temperature_sensor_state
  | Channel.cameraX => st.camera_left_right_servo_pos
  | Channel.cameraY => st.camera_up_down_servo_pos
  | Channel.laserX => st.laser_left_right_servo_pos
  | Channel.laserY => st.laser_up_down_servo_pos

/-! ## Side effects of a tick -/

/-- Observable side effects of one tick: `beginStream` is a
(re)subscription attempt for a channel's path, `digitalWrite pin high`
a two-level GPIO write, `servoWrite pin pos` a servo position write, and
`logError c` the `Serial.printf("ERROR: ...")` diagnostic in a channel's
stream-error branch. -/
inductive Action where
  | beginStream (c : Channel)
  | digitalWrite (pin : Nat) (high : Bool)
  | servoWrite (pin : Nat) (pos : Int)
  | logError (c : Channel)
deriving DecidableEq

def isActuatorWrite : Action → Bool
  | Action.digitalWrite _ _ => true
  | Action.servoWrite _ _ => true
  | _ => false

/-- Whether an action writes the physical output bound to channel `c`. -/
def writesChannel (c : Channel) : Action → Bool
  | Action.digitalWrite p _ => p == pinOf c
  | Action.servoWrite p _ => p == pinOf c
  | _ => false

/-- The actuator write a channel performs for raw value `v`.  Binary
channels (main.cpp lines 263-264, 277-278) drive the pin HIGH exactly
when the `uint8_t`-truncated value equals 1; servo channels (lines
289-291, 302-304, 315-317, 328-330) write the `constrain`ed angle. -/
def writeAction (c : Channel) (v : Int) : Action :=
  match c with
  | Channel.heatingPad => Action.digitalWrite HEATING_PAD_PIN (toUInt8 v == 1)
  | Channel.temperatureSensor => Action.digitalWrite TEMPERATURE_SENSOR_PIN (toUInt8 v == 1)
  | Channel.cameraX => Action.servoWrite CAMERA_LEFT_RIGHT_PIN (constrain v 0 180)
  | Channel.cameraY => Action.servoWrite CAMERA_UP_DOWN_PIN (constrain v 0 180)
  | Channel.laserX => Action.servoWrite LASER_LEFT_RIGHT_PIN (constrain v 10 170)
  | Channel.laserY => Action.servoWrite LASER_UP_DOWN_PIN (constrain v 10 170)

/-- The side effects of one channel's block in the ready path of `loop`.
Each block first handles a failed `readStream`: on `streamTimeout()` it
calls `beginStream` again (e.g. lines 255-257), otherwise the binary
channels log the error reason (line 258) and the servo channels do
nothing; then, if `streamAvailable()`, it performs the actuator write
(lines 260-265 and analogues). -/
def channelActions (c : Channel) (e : ChanEnv) : List Action :=
  (if !e.readOk then
     (if e.timeoutFlag then [Action.beginStream c]
      else if logOnError c then [Action.logError c] else [])
   else [])
  ++ (if e.readOk && e.available then [writeAction c e.value] else [])

/-- The state update of one channel's block in the ready path of `loop`.
The binary blocks mirror `if (state != last_state) last_state = state;`
(lines 262, 276); the servo blocks store the constrained angle in the
position global (lines 290, 303, 316, 329). -/
def channelUpdate (c : Channel) (e : ChanEnv) (st : State) : State :=
  if e.readOk && e.available then
    match c with
    | Channel.heatingPad =>
        let s := toUInt8 e.value
        if s ≠ st.last_heating_pad_state then { st with last_heating_pad_state := s } else st
    | Channel.temperatureSensor =>
        let s := toUInt8 e.value
        if s ≠ st.last_temperature_sensor_state then { st with last_temperature_sensor_state := s } else st
    | Channel.cameraX => { st with camera_left_right_servo_pos := constrain e.value 0 180 }
    | Channel.cameraY => { st with camera_up_down_servo_pos := constrain e.value 0 180 }
    | Channel.laserX => { st with laser_left_right_servo_pos := constrain e.value 10 170 }
    | Channel.laserY => { st with laser_up_down_servo_pos := constrain e.value 10 170 }
  else st

/-- The `beginStream` calls of the not-ready reconnect branch of `loop`
(main.cpp lines 186-243): for each channel, in order, `beginStream` is
attempted when `Firebase.ready()` (after the reconnect attempt) is true
and that channel's `streamTimeout()` is FALSE — note the negation in the
source condition, e.g. line 186:
`if (Firebase.ready() && !heating_pad_data.streamTimeout())`. -/
def reconnectActions (env : TickEnv) : List Action :=
  channelOrder.filterMap fun c =>
    if env.fbReadyAfterReconnect && !((env.chans c).timeoutFlag) then
      some (Action.beginStream c)
    else none

/-- One invocation of `loop` (main.cpp lines 176-334).  If
`Firebase.ready()` is false at the top, the tick only attempts recovery:
with WiFi connected it runs the reconnect branch (whose only modelled
effects are `beginStream` attempts), otherwise it just retries WiFi; in
both cases it returns without touching any channel state or actuator
(line 250).  If ready, it processes the six channels in their fixed
order; each channel's actions do not depend on the carried state, so the
effect list is the concatenation of the per-channel action lists and the
state is the fold of the per-channel updates. -/
def tick (st : State) (env : TickEnv) : State × List Action :=
  if env.fbReady then
    (channelOrder.foldl (fun s c => channelUpdate c (env.chans c) s) st,
     (channelOrder.map fun c => channelActions c (env.chans c)).flatten)
  else if env.wifiConnected then (st, reconnectActions env)
  else (st, [])

/-- The scheduler: the states reached by running `loop` once per tick
environment, starting from `st`. -/
def run (st : State) (envs : List TickEnv) : State :=
  envs.foldl (fun s e => (tick s e).1) st

/-! ## Startup (main.cpp `setup`, lines 66-170) -/

/-- Oracle values for `setup`: the result of the i-th `Firebase.ready()`
poll of the bootstrap wait loop, and the result of the initial
`Firebase.beginStream` for each channel. -/
structure SetupEnv where
  fbReadyAt : Nat → Bool
  beginOk : Channel → Bool

/-- The RTDB bootstrap wait loop (main.cpp lines 105-109):
`while (!Firebase.ready() && retry_count < 10) { delay(500); retry_count++; }`.
Returns the final retry count. -/
def waitLoop (ready : Nat → Bool) (count : Nat) : Nat :=
  if ready count = false ∧ count < 10 then waitLoop ready (count + 1) else count
termination_by 10 - count
decreasing_by omega

/-- Outcome of `setup`: bootstrap retry count, the `delay(500)` calls the
wait loop performed, whether the backend was ready after the wait, and
which channels ended up subscribed (lines 115-163: listeners are set up
only when `Firebase.ready()`, and each channel's subscription succeeds or
fails independently, its failure consumed only by logging). -/
structure SetupResult where
  retries : Nat
  delaysMs : List Nat
  fbReady : Bool
  subscribed : Channel → Bool

def setup (env : SetupEnv) : SetupResult :=
  let r := waitLoop env.fbReadyAt 0
  { retries := r
    delaysMs := List.replicate r 500
    fbReady := env.fbReadyAt r
    subscribed := fun c => env.fbReadyAt r && env.beginOk c }

/-- The whole firmware after `setup`: the scheduler loop runs from the
hardware state `setup` established (`initState`), and `loop` never reads
any of `setup`'s subscription outcomes — the stream oracles of each tick
environment stand for the library state. -/
def firmware (_senv : SetupEnv) (envs : List TickEnv) : State :=
  run initState envs

/-! ## Derived notions used by the verified properties -/

/-- The command the code computes from a raw value for each channel. -/
def mappedValue (c : Channel) (v : Int) : Int :=
  match c with
  | Channel.heatingPad | Channel.temperatureSensor => toUInt8 v
  | Channel.cameraX | Channel.cameraY => constrain v 0 180
  | Channel.laserX | Channel.laserY => constrain v 10 170

/-- The declared bounds of the four continuous actuators (spec §3
ActuatorTarget invariant): camera axes within [0, 180], laser axes within
[10, 170]. -/
def boundsInvariant (st : State) : Prop :=
  (0 ≤ st.camera_left_right_servo_pos ∧ st.camera_left_right_servo_pos ≤ 180) ∧
  (0 ≤ st.camera_up_down_servo_pos ∧ st.camera_up_down_servo_pos ≤ 180) ∧
  (10 ≤ st.laser_left_right_servo_pos ∧ st.laser_left_right_servo_pos ≤ 170) ∧
  (10 ≤ st.laser_up_down_servo_pos ∧ st.laser_up_down_servo_pos ≤ 170)

/-! ## Concrete tick environments used as inputs of witnesses and
counterexamples -/

/-- A healthy channel with no fresh sample this tick. -/
def idleChan : ChanEnv :=
  { readOk := true, timeoutFlag := false, available := false, value := 0 }

/-- Ready backend, heating-pad channel delivers raw value 257. -/
def envHeater257 : TickEnv :=
  { fbReady := true, wifiConnected := true, fbReadyAfterReconnect := false,
    chans := fun c =>
      match c with
      | Channel.heatingPad =>
          { readOk := true, timeoutFlag := false, available := true, value := 257 }
      | _ => idleChan }

/-- Ready backend, heating-pad channel delivers raw value 3. -/
def envHeater3 : TickEnv :=
  { fbReady := true, wifiConnected := true, fbReadyAfterReconnect := false,
    chans := fun c =>
      match c with
      | Channel.heatingPad =>
          { readOk := true, timeoutFlag := false, available := true, value := 3 }
      | _ => idleChan }

/-- Ready backend, heating-pad channel delivers raw value 513. -/
def envHeater513 : TickEnv :=
  { fbReady := true, wifiConnected := true, fbReadyAfterReconnect := false,
    chans := fun c =>
      match c with
      | Channel.heatingPad =>
          { readOk := true, timeoutFlag := false, available := true, value := 513 }
      | _ => idleChan }

/-- Backend not ready at tick start, WiFi connected, backend reports
ready again after the reconnect attempt, no channel flagged timed out. -/
def envReconnect : TickEnv :=
  { fbReady := false, wifiConnected := true, fbReadyAfterReconnect := true,
    chans := fun _ => idleChan }

/-- Ready backend, heating-pad stream read fails with the timeout flag
set. -/
def envHeaterTimeout : TickEnv :=
  { fbReady := true, wifiConnected := true, fbReadyAfterReconnect := false,
    chans := fun c =>
      match c with
      | Channel.heatingPad =>
          { readOk := false, timeoutFlag := true, available := false, value := 0 }
      | _ => idleChan }

/-- Ready backend, camera x-axis channel delivers raw value 200. -/
def envCamera200 : TickEnv :=
  { fbReady := true, wifiConnected := true, fbReadyAfterReconnect := false,
    chans := fun c =>
      match c with
      | Channel.cameraX =>
          { readOk := true, timeoutFlag := false, available := true, value := 200 }
      | _ => idleChan }

/-- Backend not ready at tick start, WiFi connected. -/
def envNotReady : TickEnv :=
  { fbReady := false, wifiConnected := true, fbReadyAfterReconnect := false,
    chans := fun _ => idleChan }

/-- Ready backend, every channel healthy with no fresh sample. -/
def envAllIdle : TickEnv :=
  { fbReady := true, wifiConnected := true, fbReadyAfterReconnect := false,
    chans := fun _ => idleChan }

/-- Ready backend, heating-pad stream read fails without the timeout flag
(a plain transport error). -/
def envHeaterError : TickEnv :=
  { fbReady := true, wifiConnected := true, fbReadyAfterReconnect := false,
    chans := fun c =>
      match c with
      | Channel.heatingPad =>
          { readOk := false, timeoutFlag := false, available := false, value := 0 }
      | _ => idleChan }

/-- Ready backend, heating pad delivers 1 and temperature sensor delivers
0. -/
def envBothBinary : TickEnv :=
  { fbReady := true, wifiConnected := true, fbReadyAfterReconnect := false,
    chans := fun c =>
      match c with
      | Channel.heatingPad =>
          { readOk := true, timeoutFlag := false, available := true, value := 1 }
      | Channel.temperatureSensor =>
          { readOk := true, timeoutFlag := false, available := true, value := 0 }
      | _ => idleChan }

/-! ## Basic lemmas about the embedding -/

theorem mem_channelOrder (c : Channel) : c ∈ channelOrder := by
  cases c <;> simp [channelOrder]

theorem pinOf_inj (c c' : Channel) (h : pinOf c = pinOf c') : c = c' := by
  cases c <;> cases c' <;> first | rfl | exact absurd h (by decide)

theorem pollOf_newValue {e : ChanEnv} {v : Int}
    (h : pollOf e = PollResult.newValue v) :
    e.readOk = true ∧ e.available = true ∧ e.value = v := by
  cases hr : e.readOk <;> cases ha : e.available <;> cases ht : e.timeoutFlag <;>
    simp_all [pollOf]

theorem pollOf_errored {e : ChanEnv} (h : pollOf e = PollResult.errored) :
    e.readOk = false ∧ e.timeoutFlag = false := by
  cases hr : e.readOk <;> cases ha : e.available <;> cases ht : e.timeoutFlag <;>
    simp_all [pollOf]

theorem pollOf_timedOut_iff (e : ChanEnv) :
    pollOf e = PollResult.timedOut ↔ (e.readOk = false ∧ e.timeoutFlag = true) := by
  cases hr : e.readOk <;> cases ha : e.available <;> cases ht : e.timeoutFlag <;>
    simp_all [pollOf]

theorem pollOf_not_new {e : ChanEnv}
    (h : pollOf e = PollResult.noData ∨ pollOf e = PollResult.timedOut ∨
         pollOf e = PollResult.errored) :
    (e.readOk && e.available) = false := by
  cases hr : e.readOk <;> cases ha : e.available <;> cases ht : e.timeoutFlag <;>
    simp_all [pollOf]

/-- Exhaustive description of the side effects of one channel block in the
ready path. -/
theorem mem_channelActions (a : Action) (c : Channel) (e : ChanEnv) :
    a ∈ channelActions c e ↔
      ((e.readOk = false ∧ e.timeoutFlag = true ∧ a = Action.beginStream c)
     ∨ (e.readOk = false ∧ e.timeoutFlag = false ∧ logOnError c = true ∧
          a = Action.logError c)
     ∨ (e.readOk = true ∧ e.available = true ∧ a = writeAction c e.value)) := by
  cases hr : e.readOk <;> cases ht : e.timeoutFlag <;> cases hl : logOnError c <;>
    cases ha : e.available <;> simp [channelActions, hr, ht, hl, ha]

/-- Membership in the effect list of a ready tick reduces to membership in
one channel's action list. -/
theorem mem_tick_ready {env : TickEnv} (st : State) (a : Action)
    (h : env.fbReady = true) :
    a ∈ (tick st env).2 ↔ ∃ c, a ∈ channelActions c (env.chans c) := by
  simp only [tick, h, if_pos, List.mem_flatten, List.mem_map]
  constructor
  · rintro ⟨l, ⟨c, _, rfl⟩, hal⟩
    exact ⟨c, hal⟩
  · rintro ⟨c, hac⟩
    exact ⟨channelActions c (env.chans c), ⟨c, mem_channelOrder c, rfl⟩, hac⟩

theorem beginStream_ne_writeAction (c c' : Channel) (v : Int) :
    Action.beginStream c ≠ writeAction c' v := by
  cases c' <;> simp [writeAction]

theorem logError_ne_writeAction (c c' : Channel) (v : Int) :
    Action.logError c ≠ writeAction c' v := by
  cases c' <;> simp [writeAction]

theorem writesChannel_writeAction (c c' : Channel) (v : Int) :
    writesChannel c (writeAction c' v) = (pinOf c' == pinOf c) := by
  cases c' <;> rfl

/-- In the ready path, a resubscription for channel `c` happens exactly
when `c`'s own read failed with the timeout flag set. -/
theorem beginStream_mem_tick_ready {env : TickEnv} (st : State) (c : Channel)
    (h : env.fbReady = true) :
    Action.beginStream c ∈ (tick st env).2 ↔
      ((env.chans c).readOk = false ∧ (env.chans c).timeoutFlag = true) := by
  rw [mem_tick_ready st _ h]
  constructor
  · rintro ⟨c', hc'⟩
    rw [mem_channelActions] at hc'
    rcases hc' with ⟨h1, h2, h3⟩ | ⟨_, _, _, h3⟩ | ⟨_, _, h3⟩
    · cases h3; exact ⟨h1, h2⟩
    · cases h3
    · exact absurd h3 (beginStream_ne_writeAction _ _ _)
  · rintro ⟨h1, h2⟩
    exact ⟨c, (mem_channelActions _ c _).mpr (Or.inl ⟨h1, h2, rfl⟩)⟩

/-- In the not-ready reconnect branch, a resubscription for channel `c`
happens exactly when the backend reports ready after the reconnect attempt
and `c`'s timeout flag is false. -/
theorem beginStream_mem_reconnect (env : TickEnv) (c : Channel) :
    Action.beginStream c ∈ reconnectActions env ↔
      (env.fbReadyAfterReconnect = true ∧ (env.chans c).timeoutFlag = false) := by
  simp only [reconnectActions, List.mem_filterMap]
  constructor
  · rintro ⟨c', _, hc'⟩
    by_cases hcond : env.fbReadyAfterReconnect && !((env.chans c').timeoutFlag)
    · rw [if_pos hcond] at hc'
      cases hc'
      simpa using hcond
    · rw [if_neg hcond] at hc'
      cases hc'
  · rintro ⟨h1, h2⟩
    refine ⟨c, mem_channelOrder c, ?_⟩
    rw [if_pos (by simp [h1, h2])]

/-- Reading another channel's state field commutes with a channel update. -/
theorem stateOf_channelUpdate (c c' : Channel) (e : ChanEnv) (st : State) :
    stateOf c (channelUpdate c' e st) =
      if c = c' then
        (if e.readOk && e.available then mappedValue c e.value else stateOf c st)
      else stateOf c st := by
  cases hc : (e.readOk && e.available) <;>
    cases c <;> cases c' <;>
      simp [channelUpdate, stateOf, mappedValue, hc] <;> split_ifs <;> simp_all

/-- Value of a channel's state field after a ready tick. -/
theorem stateOf_tick_ready {env : TickEnv} (st : State) (c : Channel)
    (h : env.fbReady = true) :
    stateOf c (tick st env).1 =
      if ((env.chans c).readOk && (env.chans c).available) = true then
        mappedValue c (env.chans c).value
      else stateOf c st := by
  cases c <;>
    simp [tick, h, channelOrder, stateOf_channelUpdate, mappedValue]

/-- The effect list of a tick does not depend on the carried state. -/
theorem tick_actions_const (st st' : State) (env : TickEnv) :
    (tick st env).2 = (tick st' env).2 := by
  unfold tick
  split_ifs <;> rfl

theorem constrain_eq_clamp (v low high : Int) (h : low ≤ high) :
    constrain v low high = max low (min high v) := by
  unfold constrain
  split_ifs <;> omega

theorem toUInt8_eq_one_iff (v : Int) : toUInt8 v = 1 ↔ v % 256 = 1 := by
  unfold toUInt8
  omega

/-- The not-ready reconnect branch performs only `beginStream` attempts. -/
theorem reconnect_only_beginStream {env : TickEnv} {a : Action}
    (ha : a ∈ reconnectActions env) : ∃ c, a = Action.beginStream c := by
  simp only [reconnectActions, List.mem_filterMap] at ha
  obtain ⟨c, _, hc⟩ := ha
  by_cases hcond : (env.fbReadyAfterReconnect && !((env.chans c).timeoutFlag)) = true
  · rw [if_pos hcond] at hc
    exact ⟨c, (Option.some_inj.mp hc).symm⟩
  · rw [if_neg hcond] at hc
    cases hc

/-- A digital write on a binary channel's pin is among a ready tick's
effects exactly when that channel has a fresh sample whose truncated
value determines the level. -/
theorem digitalWrite_mem_tick (st : State) (env : TickEnv) (c : Channel) (b : Bool)
    (hready : env.fbReady = true)
    (hbin : c = Channel.heatingPad ∨ c = Channel.temperatureSensor) :
    Action.digitalWrite (pinOf c) b ∈ (tick st env).2 ↔
      ((env.chans c).readOk = true ∧ (env.chans c).available = true ∧
       b = (toUInt8 (env.chans c).value == 1)) := by
  rw [mem_tick_ready st _ hready]
  constructor
  · rintro ⟨c', hc'⟩
    rw [mem_channelActions] at hc'
    rcases hc' with ⟨_, _, h3⟩ | ⟨_, _, _, h3⟩ | ⟨hr', ha', h3⟩
    · cases h3
    · cases h3
    · cases c' <;> simp only [writeAction, Action.digitalWrite.injEq] at h3
      · obtain rfl : c = Channel.heatingPad := pinOf_inj _ _ h3.1
        exact ⟨hr', ha', h3.2⟩
      · obtain rfl : c = Channel.temperatureSensor := pinOf_inj _ _ h3.1
        exact ⟨hr', ha', h3.2⟩
      all_goals cases h3
  · rintro ⟨hr, ha, hb⟩
    refine ⟨c, (mem_channelActions _ c _).mpr (Or.inr (Or.inr ⟨hr, ha, ?_⟩))⟩
    rcases hbin with rfl | rfl <;> simp [writeAction, pinOf, hb]

theorem constrain_bounds (v low high : Int) (h : low ≤ high) :
    low ≤ constrain v low high ∧ constrain v low high ≤ high := by
  unfold constrain
  split_ifs <;> omega

theorem channelUpdate_bounds (c : Channel) (e : ChanEnv) (st : State)
    (h : boundsInvariant st) : boundsInvariant (channelUpdate c e st) := by
  obtain ⟨h1, h2, h3, h4⟩ := h
  cases c <;> simp only [channelUpdate] <;> split_ifs <;>
    refine ⟨?_, ?_, ?_, ?_⟩ <;>
      simp_all [boundsInvariant, constrain] <;> split_ifs <;> omega

theorem tick_bounds (st : State) (env : TickEnv) (h : boundsInvariant st) :
    boundsInvariant (tick st env).1 := by
  unfold tick
  split_ifs
  · simp only [channelOrder, List.foldl_cons, List.foldl_nil]
    exact channelUpdate_bounds _ _ _ (channelUpdate_bounds _ _ _
      (channelUpdate_bounds _ _ _ (channelUpdate_bounds _ _ _
        (channelUpdate_bounds _ _ _ (channelUpdate_bounds _ _ _ h)))))
  · exact h
  · exact h

theorem run_bounds (envs : List TickEnv) (st : State) (h : boundsInvariant st) :
    boundsInvariant (run st envs) := by
  induction envs generalizing st with
  | nil => exact h
  | cons e es ih => exact ih _ (tick_bounds st e h)

theorem initState_bounds : boundsInvariant initState := by
  refine ⟨⟨?_, ?_⟩, ⟨?_, ?_⟩, ⟨?_, ?_⟩, ⟨?_, ?_⟩⟩ <;> norm_num [initState]

/-- The bootstrap wait loop never pushes the retry count past 10. -/
theorem waitLoop_le (ready : Nat → Bool) (n count : Nat) (hn : 10 - count ≤ n)
    (h : count ≤ 10) : waitLoop ready count ≤ 10 := by
  induction n generalizing count with
  | zero =>
    rw [waitLoop.eq_def]
    split_ifs with hc
    · exact absurd hc.2 (by omega)
    · exact h
  | succ n ih =>
    rw [waitLoop.eq_def]
    split_ifs with hc
    · exact ih (count + 1) (by omega) (by omega)
    · exact h

/-! ## Claims -/

/-- C1, counterexample: the claim says the mapped command is ON iff the
raw value equals 1 and that every other value, including values greater
than 1, maps to OFF.  On a tick where the heating-pad channel delivers
raw value 257 the code drives the pin HIGH (and does not drive it LOW),
although 257 is not 1: the assignment to a `uint8_t` truncates 257 to 1
before the comparison. -/
theorem C1_counterexample :
    ((257 : Int) == 1) = false
  ∧ Action.digitalWrite HEATING_PAD_PIN true ∈ (tick initState envHeater257).2
  ∧ (tick initState envHeater257).2.contains
      (Action.digitalWrite HEATING_PAD_PIN false) = false := by
  decide

/-- C1, amended: for every raw integer value delivered on a binary
channel (heating pad or temperature sensor), the mapped command applied
to the output is ON iff the value truncated to `uint8_t` (i.e. reduced
modulo 256) equals 1; every other value, including negative values and
values greater than 1 whose residue is not 1, maps to OFF. -/
theorem C1_binary_truncated_mapping (st : State) (env : TickEnv) (c : Channel)
    (v : Int) (hready : env.fbReady = true)
    (hbin : c = Channel.heatingPad ∨ c = Channel.temperatureSensor)
    (hnew : pollOf (env.chans c) = PollResult.newValue v) :
    Action.digitalWrite (pinOf c) (toUInt8 v == 1) ∈ (tick st env).2
  ∧ ∀ b : Bool, Action.digitalWrite (pinOf c) b ∈ (tick st env).2 →
      b = (toUInt8 v == 1) := by
  obtain ⟨hr, ha, hv⟩ := pollOf_newValue hnew
  constructor
  · exact (digitalWrite_mem_tick st env c _ hready hbin).mpr ⟨hr, ha, by rw [hv]⟩
  · intro b hb
    have hmem := (digitalWrite_mem_tick st env c b hready hbin).mp hb
    rw [hv] at hmem
    exact hmem.2.2

/-- Witness for C1's amended theorem: delivering raw value 3 on the
heating-pad channel drives the pin to the level `toUInt8 3 == 1`,
i.e. LOW. -/
theorem C1_binary_truncated_mapping_witness :
    Action.digitalWrite (pinOf Channel.heatingPad) (toUInt8 3 == 1) ∈
      (tick initState envHeater3).2 :=
  (C1_binary_truncated_mapping initState envHeater3 Channel.heatingPad 3
    rfl (Or.inl rfl) rfl).1

/-- C2, counterexample: the claim says `beginStream` is attempted for a
channel only if the backend is ready and that channel's timed-out flag
is set at the start of the tick.  On a tick that starts with the backend
not ready, WiFi connected, the backend reporting ready again after the
reconnect attempt, and the heating-pad channel NOT flagged timed out,
the code nevertheless attempts `beginStream` for the heating pad
(main.cpp lines 186-193 resubscribe on `!streamTimeout()`). -/
theorem C2_counterexample :
    envReconnect.fbReady = false
  ∧ (envReconnect.chans Channel.heatingPad).timeoutFlag = false
  ∧ Action.beginStream Channel.heatingPad ∈ (tick initState envReconnect).2 := by
  refine ⟨rfl, rfl, ?_⟩
  decide

/-- C2, amended: on a tick that starts with the backend ready,
`beginStream` is attempted for a channel iff that channel's poll reports
a timeout; on a tick that starts with the backend not ready and WiFi
connected, `beginStream` is additionally attempted for exactly those
channels whose timeout flag is FALSE, provided the backend reports ready
after the in-tick reconnect attempt; with WiFi down no resubscription is
attempted at all. -/
theorem C2_resubscription_conditions (st : State) (env : TickEnv) (c : Channel) :
    (env.fbReady = true →
       (Action.beginStream c ∈ (tick st env).2 ↔
         pollOf (env.chans c) = PollResult.timedOut))
  ∧ (env.fbReady = false → env.wifiConnected = true →
       (Action.beginStream c ∈ (tick st env).2 ↔
         (env.fbReadyAfterReconnect = true ∧
          (env.chans c).timeoutFlag = false)))
  ∧ (env.fbReady = false → env.wifiConnected = false →
       Action.beginStream c ∉ (tick st env).2) := by
  refine ⟨fun h => ?_, fun h hw => ?_, fun h hw => ?_⟩
  · rw [beginStream_mem_tick_ready st c h, pollOf_timedOut_iff]
  · have he : (tick st env).2 = reconnectActions env := by simp [tick, h, hw]
    rw [he, beginStream_mem_reconnect]
  · have he : (tick st env).2 = [] := by simp [tick, h, hw]
    rw [he]
    simp

/-- Witness for C2's amended theorem: with the backend ready and the
heating-pad read failing with the timeout flag set, the tick attempts
`beginStream` for the heating pad. -/
theorem C2_resubscription_conditions_witness :
    Action.beginStream Channel.heatingPad ∈ (tick initState envHeaterTimeout).2 :=
  ((C2_resubscription_conditions initState envHeaterTimeout
      Channel.heatingPad).1 rfl).mpr rfl

/-- C3: for every raw integer value delivered on a continuous channel,
the applied position equals the clamp of the raw value to the channel's
bounds — `max 0 (min 180 r)` for the camera axes and `max 10 (min 170 r)`
for the laser axes — both as the servo write performed and as the stored
position after the tick. -/
theorem C3_continuous_clamped (st : State) (env : TickEnv) (c : Channel) (v : Int)
    (hready : env.fbReady = true)
    (hnew : pollOf (env.chans c) = PollResult.newValue v) :
    ((c = Channel.cameraX ∨ c = Channel.cameraY) →
        Action.servoWrite (pinOf c) (max 0 (min 180 v)) ∈ (tick st env).2
      ∧ stateOf c (tick st env).1 = max 0 (min 180 v))
  ∧ ((c = Channel.laserX ∨ c = Channel.laserY) →
        Action.servoWrite (pinOf c) (max 10 (min 170 v)) ∈ (tick st env).2
      ∧ stateOf c (tick st env).1 = max 10 (min 170 v)) := by
  obtain ⟨hr, ha, hv⟩ := pollOf_newValue hnew
  have hmem : writeAction c (env.chans c).value ∈ (tick st env).2 := by
    rw [mem_tick_ready st _ hready]
    exact ⟨c, (mem_channelActions _ c _).mpr (Or.inr (Or.inr ⟨hr, ha, rfl⟩))⟩
  have hst := stateOf_tick_ready st c hready
  rw [hr, ha] at hst
  simp only [Bool.and_self, if_pos] at hst
  constructor
  · rintro (rfl | rfl) <;>
      exact ⟨by simpa [writeAction, hv, constrain_eq_clamp v 0 180 (by omega)]
               using hmem,
             by rw [hst, hv]
                simp [mappedValue, constrain_eq_clamp v 0 180 (by omega)]⟩
  · rintro (rfl | rfl) <;>
      exact ⟨by simpa [writeAction, hv, constrain_eq_clamp v 10 170 (by omega)]
               using hmem,
             by rw [hst, hv]
                simp [mappedValue, constrain_eq_clamp v 10 170 (by omega)]⟩

/-- Witness for C3: the camera x-axis channel delivering raw value 200
yields a servo write of `max 0 (min 180 200)`, i.e. 180. -/
theorem C3_continuous_clamped_witness :
    Action.servoWrite (pinOf Channel.cameraX) (max 0 (min 180 200)) ∈
      (tick initState envCamera200).2 :=
  ((C3_continuous_clamped initState envCamera200 Channel.cameraX 200
      rfl rfl).1 (Or.inl rfl)).1

/-- C4: on any tick in which the backend is not ready, no actuator write
(digital output write or servo write) occurs, and the whole firmware
state — hence every stored actuator position — is unchanged. -/
theorem C4_not_ready_no_writes (st : State) (env : TickEnv)
    (h : env.fbReady = false) :
    (tick st env).1 = st
  ∧ ∀ a ∈ (tick st env).2, isActuatorWrite a = false := by
  constructor
  · cases hw : env.wifiConnected <;> simp [tick, h, hw]
  · intro a ha
    cases hw : env.wifiConnected
    · simp [tick, h, hw] at ha
    · have he : (tick st env).2 = reconnectActions env := by simp [tick, h, hw]
      rw [he] at ha
      obtain ⟨c, rfl⟩ := reconnect_only_beginStream ha
      rfl

/-- Witness for C4: a not-ready tick leaves the initial state unchanged. -/
theorem C4_not_ready_no_writes_witness :
    (tick initState envNotReady).1 = initState :=
  (C4_not_ready_no_writes initState envNotReady rfl).1

/-- C5: for every state reachable from the initial state by any sequence
of ticks with arbitrary oracle values, each continuous actuator's stored
position lies within its declared bounds: camera axes in [0, 180] and
laser axes in [10, 170]. -/
theorem C5_positions_always_in_bounds (envs : List TickEnv) :
    boundsInvariant (run initState envs) :=
  run_bounds envs initState initState_bounds

/-- C6: on a ready tick, for every channel whose poll yields `noData`,
`timedOut` or `errored` — anything other than a fresh value — no actuator
write is performed on that channel's output and that channel's stored
state is unchanged by the tick. -/
theorem C6_no_write_without_new_value (st : State) (env : TickEnv) (c : Channel)
    (hready : env.fbReady = true)
    (hpoll : pollOf (env.chans c) = PollResult.noData ∨
             pollOf (env.chans c) = PollResult.timedOut ∨
             pollOf (env.chans c) = PollResult.errored) :
    stateOf c (tick st env).1 = stateOf c st
  ∧ ∀ a ∈ (tick st env).2, writesChannel c a = false := by
  have hcond := pollOf_not_new hpoll
  constructor
  · rw [stateOf_tick_ready st c hready, hcond]
    simp
  · intro a ha
    rw [mem_tick_ready st _ hready] at ha
    obtain ⟨c', hc'⟩ := ha
    rw [mem_channelActions] at hc'
    rcases hc' with ⟨_, _, rfl⟩ | ⟨_, _, _, rfl⟩ | ⟨hr', ha', rfl⟩
    · rfl
    · rfl
    · rw [writesChannel_writeAction]
      by_cases hcc : c' = c
      · subst hcc
        rw [hr', ha'] at hcond
        cases hcond
      · have hp : pinOf c' ≠ pinOf c := fun hp => hcc (pinOf_inj _ _ hp)
        exact beq_eq_false_iff_ne.mpr hp

/-- Witness for C6: with the heating-pad channel reporting no fresh data,
its stored state is unchanged by the tick. -/
theorem C6_no_write_without_new_value_witness :
    stateOf Channel.heatingPad (tick initState envAllIdle).1 =
      stateOf Channel.heatingPad initState :=
  (C6_no_write_without_new_value initState envAllIdle Channel.heatingPad
    rfl (Or.inl rfl)).1

/-- C7: when a poll yields a transport error that is not a timeout, the
binary channels (heating pad, temperature sensor) report the error to
diagnostics while the continuous channels do not, and on both kinds the
error never triggers a resubscription by itself. -/
theorem C7_error_logging_policy (st : State) (env : TickEnv) (c : Channel)
    (hready : env.fbReady = true)
    (herr : pollOf (env.chans c) = PollResult.errored) :
    Action.beginStream c ∉ (tick st env).2
  ∧ ((c = Channel.heatingPad ∨ c = Channel.temperatureSensor) →
       Action.logError c ∈ (tick st env).2)
  ∧ ((c = Channel.cameraX ∨ c = Channel.cameraY ∨ c = Channel.laserX ∨
        c = Channel.laserY) →
       Action.logError c ∉ (tick st env).2) := by
  obtain ⟨hr, ht⟩ := pollOf_errored herr
  refine ⟨?_, ?_, ?_⟩
  · rw [beginStream_mem_tick_ready st c hready]
    simp [ht]
  · intro hbin
    rw [mem_tick_ready st _ hready]
    refine ⟨c, (mem_channelActions _ c _).mpr (Or.inr (Or.inl ⟨hr, ht, ?_, rfl⟩))⟩
    rcases hbin with rfl | rfl <;> rfl
  · intro hcont hmem
    rw [mem_tick_ready st _ hready] at hmem
    obtain ⟨c', hc'⟩ := hmem
    rw [mem_channelActions] at hc'
    rcases hc' with ⟨_, _, h3⟩ | ⟨_, _, hl, h3⟩ | ⟨_, _, h3⟩
    · cases h3
    · obtain rfl : c = c' := by injection h3
      rcases hcont with rfl | rfl | rfl | rfl <;> cases hl
    · exact absurd h3 (logError_ne_writeAction _ _ _)

/-- Witness for C7: with the heating-pad read failing without a timeout,
the tick logs the error for that channel. -/
theorem C7_error_logging_policy_witness :
    Action.logError Channel.heatingPad ∈ (tick initState envHeaterError).2 :=
  (C7_error_logging_policy initState envHeaterError Channel.heatingPad
    rfl rfl).2.1 (Or.inl rfl)

/-- C8: whenever a binary channel reports a new value the actuator write
is performed, with the effect list of the tick entirely independent of
the carried state — so the `last_*` bookkeeping never gates or suppresses
any write — and the `last_*` variables are updated to the (truncated) new
value. -/
theorem C8_last_state_never_gates (st st' : State) (env : TickEnv) (v w : Int)
    (hready : env.fbReady = true)
    (hheat : pollOf (env.chans Channel.heatingPad) = PollResult.newValue v)
    (htemp : pollOf (env.chans Channel.temperatureSensor) =
      PollResult.newValue w) :
    Action.digitalWrite HEATING_PAD_PIN (toUInt8 v == 1) ∈ (tick st env).2
  ∧ Action.digitalWrite TEMPERATURE_SENSOR_PIN (toUInt8 w == 1) ∈ (tick st env).2
  ∧ (tick st env).2 = (tick st' env).2
  ∧ (tick st env).1.last_heating_pad_state = toUInt8 v
  ∧ (tick st env).1.last_temperature_sensor_state = toUInt8 w := by
  obtain ⟨hr1, ha1, hv1⟩ := pollOf_newValue hheat
  obtain ⟨hr2, ha2, hv2⟩ := pollOf_newValue htemp
  have hs1 := stateOf_tick_ready st Channel.heatingPad hready
  rw [hr1, ha1] at hs1
  simp only [Bool.and_self, if_pos] at hs1
  rw [hv1] at hs1
  have hs2 := stateOf_tick_ready st Channel.temperatureSensor hready
  rw [hr2, ha2] at hs2
  simp only [Bool.and_self, if_pos] at hs2
  rw [hv2] at hs2
  simp only [stateOf, mappedValue] at hs1 hs2
  refine ⟨?_, ?_, tick_actions_const st st' env, ?_, ?_⟩
  · exact (digitalWrite_mem_tick st env Channel.heatingPad _ hready
      (Or.inl rfl)).mpr ⟨hr1, ha1, by rw [hv1]⟩
  · exact (digitalWrite_mem_tick st env Channel.temperatureSensor _ hready
      (Or.inr rfl)).mpr ⟨hr2, ha2, by rw [hv2]⟩
  · exact_mod_cast hs1
  · exact_mod_cast hs2

/-- Witness for C8: heating pad delivering 1 and temperature sensor
delivering 0 both produce their digital writes. -/
theorem C8_last_state_never_gates_witness :
    Action.digitalWrite HEATING_PAD_PIN (toUInt8 1 == 1) ∈
      (tick initState envBothBinary).2 :=
  (C8_last_state_never_gates initState initState envBothBinary 1 0
    rfl rfl rfl).1

/-- C9: the startup backend-bootstrap wait loop performs at most 10 retry
attempts, each preceded by the same fixed 500 ms delay; which channels end
up subscribed depends only on the post-wait readiness and each channel's
own `beginStream` outcome; and the scheduler's run is the same whatever
the setup oracle values were — a failed bootstrap or initial subscription
never blocks the loop from ticking. -/
theorem C9_bounded_bootstrap (senv senv' : SetupEnv) (envs : List TickEnv) :
    (setup senv).retries ≤ 10
  ∧ (setup senv).delaysMs = List.replicate (setup senv).retries 500
  ∧ (∀ c, (setup senv).subscribed c = ((setup senv).fbReady && senv.beginOk c))
  ∧ firmware senv envs = firmware senv' envs := by
  refine ⟨?_, rfl, fun c => rfl, rfl⟩
  exact waitLoop_le senv.fbReadyAt 10 0 (by omega) (by omega)

/-- C10: for the binary channels the applied command depends on the raw
value only through its residue modulo 256: the output is driven HIGH
exactly when `v % 256 = 1`. -/
theorem C10_binary_mod256 (st : State) (env : TickEnv) (c : Channel) (v : Int)
    (hready : env.fbReady = true)
    (hbin : c = Channel.heatingPad ∨ c = Channel.temperatureSensor)
    (hnew : pollOf (env.chans c) = PollResult.newValue v) :
    Action.digitalWrite (pinOf c) true ∈ (tick st env).2 ↔ v % 256 = 1 := by
  obtain ⟨hr, ha, hv⟩ := pollOf_newValue hnew
  rw [digitalWrite_mem_tick st env c true hready hbin]
  simp only [hr, ha, hv, true_and]
  constructor
  · intro h
    exact (toUInt8_eq_one_iff v).mp (Nat.beq_eq_true_eq _ _ ▸ h.symm)
  · intro h
    have ht : toUInt8 v = 1 := (toUInt8_eq_one_iff v).mpr h
    simp [ht]

/-- Witness for C10: raw value 513 on the heating-pad channel drives the
output HIGH, because 513 % 256 = 1. -/
theorem C10_binary_mod256_witness :
    Action.digitalWrite (pinOf Channel.heatingPad) true ∈
      (tick initState envHeater513).2 :=
  (C10_binary_mod256 initState envHeater513 Channel.heatingPad 513
    rfl (Or.inl rfl) rfl).mpr (by decide)

end SmartHome
